import Mathlib

/-
Verification of the hero-catalog HTTP service (routers/hero.js).

The development shallowly embeds the route handlers: the record store is
modelled as in-memory lists, store queries as executable predicates, and the
JavaScript value coercions that the handlers rely on (Number(), parseInt(),
string concatenation with undefined, NaN arithmetic) as explicit functions.
-/

namespace HeroApp

/-! ## JavaScript number model

The handlers do arithmetic on `req.query.page`, which is a string or
`undefined`.  JavaScript coerces it with `Number()` (for `-`, `*`, `==`) and
with `parseInt()`; a failed coercion yields `NaN`, which propagates through
arithmetic.  We model the integer fragment of these coercions. -/

/-- A JavaScript number as used by the handlers: an integer or NaN. -/
inductive JSNum where
  | num : Int → JSNum
  | nan : JSNum
deriving DecidableEq, Repr

/-- JS subtraction: NaN propagates. -/
def JSNum.sub : JSNum → JSNum → JSNum
  | .num a, .num b => .num (a - b)
  | _, _ => .nan

/-- JS addition (numeric operands): NaN propagates. -/
def JSNum.add : JSNum → JSNum → JSNum
  | .num a, .num b => .num (a + b)
  | _, _ => .nan

/-- JS multiplication: NaN propagates. -/
def JSNum.mul : JSNum → JSNum → JSNum
  | .num a, .num b => .num (a * b)
  | _, _ => .nan

/-- Parse a non-empty all-digit character list as a natural number. -/
def parseNatDigits (cs : List Char) : Option Nat :=
  if cs ≠ [] ∧ cs.all Char.isDigit then
    some (cs.foldl (fun a c => a * 10 + (c.toNat - 48)) 0)
  else none

/-- Model of JavaScript `Number(s)` on the integer fragment: the empty string
coerces to 0, an optionally negated digit string to its value, anything else
to NaN. -/
def strToNumber (s : String) : JSNum :=
  match s.data with
  | [] => JSNum.num 0
  | '-' :: rest =>
    match parseNatDigits rest with
    | some n => JSNum.num (-(n : Int))
    | none => JSNum.nan
  | cs =>
    match parseNatDigits cs with
    | some n => JSNum.num (n : Int)
    | none => JSNum.nan

/-- Model of JavaScript `parseInt(s)` on the integer fragment: parse the
longest leading (optionally negated) digit run; NaN if there is none. -/
def parseIntStr (s : String) : JSNum :=
  match s.data with
  | '-' :: rest =>
    match parseNatDigits (rest.takeWhile Char.isDigit) with
    | some n => JSNum.num (-(n : Int))
    | none => JSNum.nan
  | cs =>
    match parseNatDigits (cs.takeWhile Char.isDigit) with
    | some n => JSNum.num (n : Int)
    | none => JSNum.nan

/-- `Number(x)` for `x : req.query.page` (a string or `undefined`):
`Number(undefined)` is NaN. -/
def jsToNumberOpt : Option String → JSNum
  | none => JSNum.nan
  | some s => strToNumber s

/-- `parseInt(x)` for a string-or-undefined value: `parseInt(undefined)`
parses the text "undefined" and yields NaN. -/
def parseIntOpt : Option String → JSNum
  | none => JSNum.nan
  | some s => parseIntStr s

/-- JavaScript string coercion of a string-or-undefined value, as performed by
`"^" + req.query.name`: `undefined` coerces to the text "undefined". -/
def jsToString : Option String → String
  | none => "undefined"
  | some s => s

/-- The `page` variable of a handler after JS evaluation: either the raw query
string or a number it was reassigned to. -/
inductive JSVal where
  | str : String → JSVal
  | numv : Int → JSVal
deriving DecidableEq, Repr

/-- Numeric coercion of the page variable, as used by `page - 1` and
`page == 1`. -/
def JSVal.toNumber : JSVal → JSNum
  | .str s => strToNumber s
  | .numv n => .num n

/-- `parseInt(page)`: a number is first converted to its decimal string, which
parses back to itself for the integers used here. -/
def JSVal.parseIntJS : JSVal → JSNum
  | .str s => parseIntStr s
  | .numv n => .num n

/-! ## Regular expressions

The by-name and combined search build `new RegExp("^" + text, "i")` and hand
it to the store, which matches it against the `name` field with search
semantics.  We model the regex fragment the claims exercise — literal
characters, `.`, and postfix `*` — with a Brzozowski-derivative matcher, and
the `i` flag by ASCII case folding of both pattern and subject. -/

/-- Regular expressions over characters. -/
inductive RE where
  | fail : RE
  | eps : RE
  | chr : Char → RE
  | dot : RE
  | alt : RE → RE → RE
  | seq : RE → RE → RE
  | star : RE → RE
deriving DecidableEq, Repr

/-- Does the expression accept the empty word? -/
def nullable : RE → Bool
  | .fail => false
  | .eps => true
  | .chr _ => false
  | .dot => false
  | .alt a b => nullable a || nullable b
  | .seq a b => nullable a && nullable b
  | .star _ => true

/-- Brzozowski derivative of an expression by a character. -/
def rderiv : RE → Char → RE
  | .fail, _ => .fail
  | .eps, _ => .fail
  | .chr c, x => if x = c then .eps else .fail
  | .dot, _ => .eps
  | .alt a b, x => .alt (rderiv a x) (rderiv b x)
  | .seq a b, x =>
    if nullable a then .alt (.seq (rderiv a x) b) (rderiv b x)
    else .seq (rderiv a x) b
  | .star a, x => .seq (rderiv a x) (.star a)

/-- Does the expression match some leading segment of the word?  This is the
semantics of a `^`-anchored regex under JavaScript/MongoDB search matching. -/
def prefMatch : RE → List Char → Bool
  | r, [] => nullable r
  | r, c :: cs => nullable r || prefMatch (rderiv r c) cs

/-- One pattern atom: `.` is the wildcard, anything else a literal. -/
def parseAtom (c : Char) : RE :=
  if c = '.' then RE.dot else RE.chr c

/-- Parse a pattern body into an expression: an atom followed by `*` becomes a
star, otherwise atoms are concatenated. -/
def parsePat : List Char → RE
  | [] => RE.eps
  | [c] => RE.seq (parseAtom c) RE.eps
  | c :: c2 :: rest =>
    if c2 = '*' then RE.seq (RE.star (parseAtom c)) (parsePat rest)
    else RE.seq (parseAtom c) (parsePat (c2 :: rest))

/-- Search a word with a pattern: a leading `^` anchors the rest of the
pattern to the start of the word; otherwise any position may match. -/
def reSearch (pat : List Char) (s : List Char) : Bool :=
  match pat with
  | '^' :: rest => prefMatch (parsePat rest) s
  | cs => (s.tails).any (fun t => prefMatch (parsePat cs) t)

/-- ASCII case folding used to model the regex `i` flag. -/
def lowerChar (c : Char) : Char :=
  if 'A' ≤ c ∧ c ≤ 'Z' then Char.ofNat (c.toNat + 32) else c

/-- Case-insensitive regex search of a subject string, the semantics of
matching `new RegExp(pat, "i")` against `s`. -/
def reTestI (pat : String) (s : String) : Bool :=
  reSearch (pat.data.map lowerChar) (s.data.map lowerChar)

/-! ## Data model

The Hero and Comment schemas live in `models/hero.js` / `models/comment.js`,
which are not part of the sources at hand; the structures below are modelled
from the spec (§3): a hero has a name, appearance attributes including a
gender, and six bounded integer powerstats; a comment references exactly one
hero, carries free text, and receives a store-assigned creation timestamp. -/

/-- The six powerstat keys named by the min-stats and combined search. -/
inductive StatKey where
  | intelligence | strength | speed | durability | power | combat
deriving DecidableEq, Repr

/-- Modelled from the spec: the `powerstats` subdocument of a hero, a fixed
mapping from stat name to integer. -/
structure Powerstats where
  intelligence : Int
  strength : Int
  speed : Int
  durability : Int
  power : Int
  combat : Int
deriving DecidableEq, Repr

/-- Look up a powerstat by key, the meaning of the document path
`powerstats.<key>`. -/
def Powerstats.get (ps : Powerstats) : StatKey → Int
  | .intelligence => ps.intelligence
  | .strength => ps.strength
  | .speed => ps.speed
  | .durability => ps.durability
  | .power => ps.power
  | .combat => ps.combat

/-- Modelled from the spec: a hero document.  `gender` stands for the
document path `appearance.gender`. -/
structure Hero where
  id : Nat
  name : String
  gender : String
  powerstats : Powerstats
deriving DecidableEq, Repr

/-- Modelled from the spec: a comment document; `hero` is the reference to
the hero it belongs to and `createdAt` the store-assigned creation time. -/
structure Comment where
  id : Nat
  hero : Nat
  text : String
  createdAt : Nat
deriving DecidableEq, Repr

/-- Modelled from the spec: the record store visible to the handlers — the
two collections plus the store-internal id and timestamp counters. -/
structure DBState where
  heroes : List Hero
  comments : List Comment
  nextId : Nat
  clock : Nat
deriving DecidableEq, Repr

/-- A comment after `populate('hero')`: the hero reference resolved to the
full hero record (or nothing when the referenced hero does not exist). -/
structure PopComment where
  text : String
  hero : Option Hero
  createdAt : Nat
deriving DecidableEq, Repr

/-! ## Store operations -/

/-- Insertion step of the name sort. -/
def insByName (h : Hero) : List Hero → List Hero
  | [] => [h]
  | x :: xs => if h.name ≤ x.name then h :: x :: xs else x :: insByName h xs

/-- `sort({name: 'asc'})`: heroes sorted by name ascending. -/
def sortByName : List Hero → List Hero
  | [] => []
  | h :: hs => insByName h (sortByName hs)

/-- Insertion step of the descending creation-time sort. -/
def insTimeDesc (c : Comment) : List Comment → List Comment
  | [] => [c]
  | x :: xs => if x.createdAt ≤ c.createdAt then c :: x :: xs else x :: insTimeDesc c xs

/-- `sort({createdAt: 'desc'})`: comments from newest to oldest. -/
def sortByCreatedDesc : List Comment → List Comment
  | [] => []
  | c :: cs => insTimeDesc c (sortByCreatedDesc cs)

/-- `.skip(skip).limit(limit)` on an already filtered and sorted list.  The
store rejects a NaN or negative skip (the request then fails), modelled as
`none`. -/
def applySkipLimit {α : Type} (xs : List α) (skip : JSNum) (limit : Nat) :
    Option (List α) :=
  match skip with
  | .num n => if 0 ≤ n then some ((xs.drop n.toNat).take limit) else none
  | .nan => none

/-- `st.heroes.find` by id, the store's resolution of a hero reference. -/
def findHero (st : DBState) (hid : Nat) : Option Hero :=
  st.heroes.find? (fun h => h.id == hid)

/-- `populate('hero')` applied to one comment. -/
def populate (st : DBState) (c : Comment) : PopComment :=
  { text := c.text, hero := findHero st c.hero, createdAt := c.createdAt }

/-! ## Route handlers (routers/hero.js) -/

/-- `DEFAULT_HEROES_PER_PAGE` -/
def DEFAULT_HEROES_PER_PAGE : Nat := 10

/-- `DEFAULT_COMMENTS_PER_PAGE` -/
def DEFAULT_COMMENTS_PER_PAGE : Nat := 3

/-- `Math.ceil(count / limit)` for the natural numbers involved. -/
def ceilPageCount (count limit : Nat) : Nat := (count + limit - 1) / limit

/-- The shape shared by the list responses: the fetched page (`none` when the
store rejects the skip), the reported count, the `pagination` object as the
ordered list of its fields, and — recorded for the proofs — the skip and
limit values the handler passed to the store. -/
structure ListResponse (α : Type) where
  data : Option (List α)
  count : Nat
  pagination : List (String × JSNum)
  skip : JSNum
  limit : Nat
deriving DecidableEq, Repr

/-- The `page` variable of GET /heroes after
`var page = req.query.page; if (isNaN(page)) page = 1`: `isNaN(undefined)` is
true, so an absent or non-numeric page is replaced by the number 1 and a
numeric page keeps its raw string value. -/
def heroesPageVar (pq : Option String) : JSVal :=
  match pq with
  | none => JSVal.numv 1
  | some s => if strToNumber s = JSNum.nan then JSVal.numv 1 else JSVal.str s

/-- GET /heroes: all heroes, sorted by name, paginated; the pagination object
additionally carries `previousPage` (clamped to 1 at page 1 via `page == 1`)
and `nextPage = parseInt(page) + 1`. -/
def getHeroes (heroes : List Hero) (pq : Option String) : ListResponse Hero :=
  let page := heroesPageVar pq
  let prev0 := page.toNumber.sub (JSNum.num 1)
  let nextPage := page.parseIntJS.add (JSNum.num 1)
  let previousPage := if page.toNumber = JSNum.num 1 then JSNum.num 1 else prev0
  let count := heroes.length
  let pageCount := ceilPageCount count DEFAULT_HEROES_PER_PAGE
  let skip := (page.toNumber.sub (JSNum.num 1)).mul (JSNum.num (DEFAULT_HEROES_PER_PAGE : Int))
  { data := applySkipLimit (sortByName heroes) skip DEFAULT_HEROES_PER_PAGE
    count := count
    pagination := [("previousPage", previousPage), ("nextPage", nextPage),
      ("page", page.parseIntJS), ("pageCount", JSNum.num (pageCount : Int))]
    skip := skip
    limit := DEFAULT_HEROES_PER_PAGE }

/-- The filter of POST /search/heroes/by-name:
`{name: new RegExp("^" + req.body.query, "i")}`; a missing body query is
string-coerced to the text "undefined" by the concatenation. -/
def byNameFilter (body : Option String) (h : Hero) : Bool :=
  reTestI ("^" ++ jsToString body) h.name

/-- POST /search/heroes/by-name: the raw `req.query.page` is used directly in
`(page - 1) * DEFAULT_HEROES_PER_PAGE`, and the count call repeats the name
filter. -/
def searchByName (heroes : List Hero) (body : Option String) (pq : Option String) :
    ListResponse Hero :=
  let skip := ((jsToNumberOpt pq).sub (JSNum.num 1)).mul (JSNum.num (DEFAULT_HEROES_PER_PAGE : Int))
  let count := (heroes.filter (byNameFilter body)).length
  { data := applySkipLimit (sortByName (heroes.filter (byNameFilter body))) skip
      DEFAULT_HEROES_PER_PAGE
    count := count
    pagination := [("page", parseIntOpt pq),
      ("pageCount", JSNum.num ((ceilPageCount count DEFAULT_HEROES_PER_PAGE : Nat) : Int))]
    skip := skip
    limit := DEFAULT_HEROES_PER_PAGE }

/-- The filter of POST /search/heroes/by-min-stats: the loop over the body
builds one `{powerstats.<key>: {$gte: value}}` clause per supplied key and the
query is their `$and`; per spec §4.1 an empty conjunction is vacuous and
matches every hero. -/
def minStatsFilter (m : List (StatKey × Int)) (h : Hero) : Bool :=
  m.all (fun c => c.2 ≤ h.powerstats.get c.1)

/-- POST /search/heroes/by-min-stats: like the by-name search but with the
stat conjunction as filter; the raw page is again used unnormalized. -/
def searchByMinStats (heroes : List Hero) (m : List (StatKey × Int))
    (pq : Option String) : ListResponse Hero :=
  let skip := ((jsToNumberOpt pq).sub (JSNum.num 1)).mul (JSNum.num (DEFAULT_HEROES_PER_PAGE : Int))
  let count := (heroes.filter (minStatsFilter m)).length
  { data := applySkipLimit (sortByName (heroes.filter (minStatsFilter m))) skip
      DEFAULT_HEROES_PER_PAGE
    count := count
    pagination := [("page", parseIntOpt pq),
      ("pageCount", JSNum.num ((ceilPageCount count DEFAULT_HEROES_PER_PAGE : Nat) : Int))]
    skip := skip
    limit := DEFAULT_HEROES_PER_PAGE }

/-- The query-string parameters of GET /search.  The six stat values are the
query strings after the store's numeric cast. -/
structure CombinedQuery where
  name : Option String
  gender : Option String
  intelligence : Option Int
  strength : Option Int
  speed : Option Int
  durability : Option Int
  power : Option Int
  combat : Option Int
  page : Option String
deriving DecidableEq, Repr

/-- The name clause of GET /search:
`new RegExp("^" + req.query.name, "i")` — an absent name is string-coerced to
the text "undefined" before the store ever sees the filter. -/
def nameClause (qn : Option String) (h : Hero) : Bool :=
  reTestI ("^" ++ jsToString qn) h.name

/-- A `{$gte: v}` clause whose bound may be absent.  An absent (`undefined`)
value is stripped from the filter by the store client, leaving the field
unconstrained. -/
def gteClause (bound : Option Int) (v : Int) : Bool :=
  match bound with
  | none => true
  | some b => b ≤ v

/-- The full filter object of GET /search: name regex, exact
`appearance.gender` match, and the six stat lower bounds.  Absent gender and
stat values are `undefined` in the filter object and are stripped by the
store client; the absent name is not, having already been folded into the
regex text. -/
def combinedFilter (q : CombinedQuery) (h : Hero) : Bool :=
  nameClause q.name h
    && (match q.gender with | none => true | some g => h.gender == g)
    && gteClause q.intelligence h.powerstats.intelligence
    && gteClause q.strength h.powerstats.strength
    && gteClause q.speed h.powerstats.speed
    && gteClause q.durability h.powerstats.durability
    && gteClause q.power h.powerstats.power
    && gteClause q.combat h.powerstats.combat

/-- GET /search: fetches the page with the full filter but counts with
`Hero.find({name: qname}).countDocuments({})` — the name clause only. -/
def getSearch (heroes : List Hero) (q : CombinedQuery) : ListResponse Hero :=
  let skip := ((jsToNumberOpt q.page).sub (JSNum.num 1)).mul (JSNum.num (DEFAULT_HEROES_PER_PAGE : Int))
  let count := (heroes.filter (nameClause q.name)).length
  { data := applySkipLimit (sortByName (heroes.filter (combinedFilter q))) skip
      DEFAULT_HEROES_PER_PAGE
    count := count
    pagination := [("page", parseIntOpt q.page),
      ("pageCount", JSNum.num ((ceilPageCount count DEFAULT_HEROES_PER_PAGE : Nat) : Int))]
    skip := skip
    limit := DEFAULT_HEROES_PER_PAGE }

/-- POST /heroes/:id/comments: saves `new Comment({hero: id, text})` (the
store assigns the id and the `createdAt` timestamp) and re-reads it by id
with the hero reference populated. -/
def createComment (st : DBState) (hid : Nat) (text : String) :
    DBState × PopComment :=
  let c : Comment := { id := st.nextId, hero := hid, text := text, createdAt := st.clock }
  let st' : DBState :=
    { heroes := st.heroes
      comments := st.comments ++ [c]
      nextId := st.nextId + 1
      clock := st.clock + 1 }
  (st', populate st' c)

/-- GET /heroes/:id/comments: comments for the hero, populated, newest first,
paginated with page size 3 and the raw page value. -/
def getComments (st : DBState) (hid : Nat) (pq : Option String) :
    ListResponse PopComment :=
  let skip := ((jsToNumberOpt pq).sub (JSNum.num 1)).mul (JSNum.num (DEFAULT_COMMENTS_PER_PAGE : Int))
  let filtered := st.comments.filter (fun c => c.hero == hid)
  let count := filtered.length
  { data := applySkipLimit ((sortByCreatedDesc filtered).map (populate st)) skip
      DEFAULT_COMMENTS_PER_PAGE
    count := count
    pagination := [("page", parseIntOpt pq),
      ("pageCount", JSNum.num ((ceilPageCount count DEFAULT_COMMENTS_PER_PAGE : Nat) : Int))]
    skip := skip
    limit := DEFAULT_COMMENTS_PER_PAGE }

/-! ## Regex lemmas

The amended by-name statement needs that a metacharacter-free pattern matches
exactly the names it is a literal prefix of. -/

/-- The pattern metacharacters of the JavaScript regex dialect. -/
def regexMeta : List Char :=
  ['.', '*', '+', '?', '^', '$', '(', ')', '[', ']', '|', '\\', '/',
   Char.ofNat 123, Char.ofNat 125]

/-- A character that the regex engine treats as literal data. -/
def litChar (c : Char) : Bool := !(c ∈ regexMeta)

theorem prefMatch_eps (s : List Char) : prefMatch RE.eps s = true := by
  cases s <;> simp [prefMatch, nullable]

theorem prefMatch_fail_seq (s : List Char) (r : RE) :
    prefMatch (RE.seq RE.fail r) s = false := by
  induction s with
  | nil => simp [prefMatch, nullable]
  | cons c cs ih => simp [prefMatch, nullable, rderiv, ih]

theorem prefMatch_alt (s : List Char) (a b : RE) :
    prefMatch (RE.alt a b) s = (prefMatch a s || prefMatch b s) := by
  induction s generalizing a b with
  | nil => simp [prefMatch, nullable]
  | cons c cs ih =>
    simp only [prefMatch, nullable, rderiv, ih]
    cases nullable a <;> cases nullable b <;>
      simp [Bool.or_assoc, Bool.or_comm, Bool.or_left_comm]

theorem prefMatch_eps_seq (s : List Char) (r : RE) :
    prefMatch (RE.seq RE.eps r) s = prefMatch r s := by
  cases s with
  | nil => simp [prefMatch, nullable]
  | cons c cs =>
    simp [prefMatch, nullable, rderiv, prefMatch_alt, prefMatch_fail_seq]

theorem prefMatch_chr_seq_nil (c : Char) (r : RE) :
    prefMatch (RE.seq (RE.chr c) r) [] = false := by
  simp [prefMatch, nullable]

theorem prefMatch_chr_seq_cons (c x : Char) (r : RE) (xs : List Char) :
    prefMatch (RE.seq (RE.chr c) r) (x :: xs) = ((x == c) && prefMatch r xs) := by
  by_cases hxc : x = c
  · subst hxc
    simp [prefMatch, nullable, rderiv, prefMatch_eps_seq]
  · simp [prefMatch, nullable, rderiv, hxc, prefMatch_fail_seq]

/-- A pattern of literal characters prefix-matches exactly the words it is a
prefix of. -/
theorem prefMatch_parsePat_lit (p s : List Char)
    (hp : ∀ c ∈ p, c ≠ '*' ∧ c ≠ '.') :
    prefMatch (parsePat p) s = p.isPrefixOf s := by
  induction p generalizing s with
  | nil =>
    cases s <;> simp [parsePat, prefMatch_eps, List.isPrefixOf]
  | cons c rest ih =>
    have hc : c ≠ '*' ∧ c ≠ '.' := hp c (List.mem_cons_self _ _)
    have hatom : parseAtom c = RE.chr c := by simp [parseAtom, hc.2]
    have hrest : ∀ x ∈ rest, x ≠ '*' ∧ x ≠ '.' := fun x hx =>
      hp x (List.mem_cons_of_mem _ hx)
    have hpp : parsePat (c :: rest) = RE.seq (RE.chr c) (parsePat rest) := by
      cases rest with
      | nil => simp [parsePat, hatom]
      | cons c2 r2 =>
        have hc2 : c2 ≠ '*' := (hrest c2 (List.mem_cons_self _ _)).1
        simp [parsePat, hatom, hc2]
    rw [hpp]
    cases s with
    | nil => simp [prefMatch_chr_seq_nil, List.isPrefixOf]
    | cons x xs =>
      rw [prefMatch_chr_seq_cons, ih xs hrest]
      simp [List.isPrefixOf, BEq.comm]

/-- Unfold the by-name filter on a present query into the anchored prefix
match on the case-folded strings. -/
theorem byNameFilter_some_eq (q : String) (h : Hero) :
    byNameFilter (some q) h =
      prefMatch (parsePat (q.data.map lowerChar)) (h.name.data.map lowerChar) := by
  have hlow : lowerChar '^' = '^' := by decide
  simp [byNameFilter, jsToString, reTestI, String.data_append, hlow, reSearch]

/-! ## Sorting lemma for the comment listing -/

/-- Appending two comments newer than everything else and sorting descending
puts them, newest first, at the front. -/
theorem sortDesc_append_two (ps : List Comment) (A B : Comment)
    (hA : ∀ p ∈ ps, p.createdAt < A.createdAt)
    (hAB : A.createdAt < B.createdAt) :
    sortByCreatedDesc (ps ++ [A, B]) = B :: A :: sortByCreatedDesc ps := by
  induction ps with
  | nil =>
    simp [sortByCreatedDesc, insTimeDesc, Nat.not_le.mpr hAB]
  | cons p ps ih =>
    have hpA : p.createdAt < A.createdAt := hA p (List.mem_cons_self _ _)
    have hpB : p.createdAt < B.createdAt := lt_trans hpA hAB
    have ih' := ih (fun x hx => hA x (List.mem_cons_of_mem _ hx))
    simp only [List.cons_append, sortByCreatedDesc, List.append_eq]
    rw [ih']
    simp [insTimeDesc, Nat.not_le.mpr hpA, Nat.not_le.mpr hpB]

/-! ## Concrete fixtures -/

/-- A hero named Flash with fast powerstats. -/
def flashPS : Powerstats :=
  { intelligence := 63, strength := 60, speed := 100, durability := 60,
    power := 63, combat := 60 }

/-- The hero "Flash" used by the spec's examples. -/
def flashHero : Hero :=
  { id := 1, name := "Flash", gender := "Male", powerstats := flashPS }

/-- A slow second hero whose name shares the prefix "Fla". -/
def flamebirdPS : Powerstats :=
  { intelligence := 50, strength := 40, speed := 10, durability := 40,
    power := 45, combat := 50 }

/-- The hero "Flamebird": matches the name prefix "fla" but not a speed
bound of 50. -/
def flamebirdHero : Hero :=
  { id := 2, name := "Flamebird", gender := "Male", powerstats := flamebirdPS }

/-- A GET /search request with every filter parameter omitted. -/
def noFilterQuery : CombinedQuery :=
  { name := none, gender := none, intelligence := none, strength := none,
    speed := none, durability := none, power := none, combat := none,
    page := some "1" }

/-- A GET /search request filtering on name prefix "fla" and speed ≥ 50. -/
def flaSpeed50Query : CombinedQuery :=
  { name := some "fla", gender := none, intelligence := none, strength := none,
    speed := some 50, durability := none, power := none, combat := none,
    page := some "1" }

/-! ## Claims -/

/-- Claim C1: the claim states that any combined-search filter parameter left
unset acts as no constraint.  The code instead concatenates the absent name
into the regex text — `"^" + undefined` is `"^undefined"` — so with every
parameter omitted the hero Flash fails the name clause and the endpoint
returns no data and count 0, where the claim requires Flash to be returned. -/
theorem claim_C1_absent_name_filters :
    combinedFilter noFilterQuery flashHero = false
    ∧ (getSearch [flashHero] noFilterQuery).data = some []
    ∧ (getSearch [flashHero] noFilterQuery).count = 0 := by
  decide

/-- Claim C2 (counterexample): the claim says every paginated endpoint uses
effective page 1 (skip 0) when the page input is absent; but the min-stats
search uses the raw `req.query.page`, so an absent page gives
`(undefined - 1) * 10 = NaN`, not 0. -/
theorem claim_C2_cex :
    (searchByMinStats [] [] none).skip = JSNum.nan
    ∧ JSNum.nan ≠ JSNum.num 0 := by
  decide

/-- Claim C2 (amended): only the list-heroes endpoint normalizes an absent or
non-numeric page to 1 (skip 0); the by-name, min-stats, combined-search and
comment-listing endpoints compute their skip from the raw page value, which
is NaN for such inputs. -/
theorem claim_C2_amended (heroes : List Hero) (body : Option String)
    (m : List (StatKey × Int)) (st : DBState) (hid : Nat) (q : CombinedQuery)
    (pq : Option String) (hnan : jsToNumberOpt pq = JSNum.nan)
    (hq : q.page = pq) :
    (getHeroes heroes pq).skip = JSNum.num 0
    ∧ (searchByName heroes body pq).skip = JSNum.nan
    ∧ (searchByMinStats heroes m pq).skip = JSNum.nan
    ∧ (getSearch heroes q).skip = JSNum.nan
    ∧ (getComments st hid pq).skip = JSNum.nan := by
  refine ⟨?_, ?_, ?_, ?_, ?_⟩
  · cases pq with
    | none => simp [getHeroes, heroesPageVar, JSVal.toNumber, JSNum.sub, JSNum.mul]
    | some s =>
      have hs : strToNumber s = JSNum.nan := hnan
      simp [getHeroes, heroesPageVar, hs, JSVal.toNumber, JSNum.sub, JSNum.mul]
  · simp [searchByName, hnan, JSNum.sub, JSNum.mul]
  · simp [searchByMinStats, hnan, JSNum.sub, JSNum.mul]
  · simp [getSearch, hq, hnan, JSNum.sub, JSNum.mul]
  · simp [getComments, hnan, JSNum.sub, JSNum.mul]

/-- Witness for claim C2 (amended) at the absent page. -/
theorem claim_C2_amended_witness :
    (getHeroes [] none).skip = JSNum.num 0
    ∧ (searchByName [] none none).skip = JSNum.nan
    ∧ (searchByMinStats [] [] none).skip = JSNum.nan
    ∧ (getSearch [] { noFilterQuery with page := none }).skip = JSNum.nan
    ∧ (getComments { heroes := [], comments := [], nextId := 0, clock := 0 } 0 none).skip
        = JSNum.nan :=
  claim_C2_amended [] none [] { heroes := [], comments := [], nextId := 0, clock := 0 }
    0 { noFilterQuery with page := none } none rfl rfl

/-- Claim C3 (counterexample): the claim says every endpoint's count equals
the records matching its full filter.  The combined search counts with
`Hero.find({name: qname}).countDocuments({})` — name clause only — so with
two "Fla…" heroes of which only one meets the speed bound, count is 2 while
the full filter matches 1. -/
theorem claim_C3_cex :
    (getSearch [flashHero, flamebirdHero] flaSpeed50Query).count = 2
    ∧ ([flashHero, flamebirdHero].filter (combinedFilter flaSpeed50Query)).length = 1
    ∧ (getSearch [flashHero, flamebirdHero] flaSpeed50Query).count ≠
        ([flashHero, flamebirdHero].filter (combinedFilter flaSpeed50Query)).length := by
  decide

/-- Claim C3 (amended): count equals the number of records matching the full
filter for the list-heroes, by-name, min-stats and comment-listing endpoints;
the combined search instead reports the number of heroes matching the name
clause alone. -/
theorem claim_C3_amended (heroes : List Hero) (body : Option String)
    (m : List (StatKey × Int)) (q : CombinedQuery) (pq : Option String)
    (st : DBState) (hid : Nat) :
    (getHeroes heroes pq).count = heroes.length
    ∧ (searchByName heroes body pq).count = (heroes.filter (byNameFilter body)).length
    ∧ (searchByMinStats heroes m pq).count = (heroes.filter (minStatsFilter m)).length
    ∧ (getComments st hid pq).count = (st.comments.filter (fun c => c.hero == hid)).length
    ∧ (getSearch heroes q).count = (heroes.filter (nameClause q.name)).length :=
  ⟨rfl, rfl, rfl, rfl, rfl⟩

/-- Claim C4: min-stats search with an empty threshold mapping builds an
empty conjunction, which matches every hero: the page is the first ten heroes
sorted by name and count is the collection size. -/
theorem claim_C4 (heroes : List Hero) :
    (searchByMinStats heroes [] (some "1")).count = heroes.length
    ∧ (searchByMinStats heroes [] (some "1")).data = some ((sortByName heroes).take 10) := by
  have hf : heroes.filter (minStatsFilter []) = heroes := by
    simp [minStatsFilter]
  have hskip : ((jsToNumberOpt (some "1")).sub (JSNum.num 1)).mul
      (JSNum.num 10) = JSNum.num 0 := by decide
  refine ⟨?_, ?_⟩
  · simp [searchByMinStats, hf]
  · simp [searchByMinStats, hf, DEFAULT_HEROES_PER_PAGE, hskip, applySkipLimit]

/-- Claim C5: with a non-empty threshold mapping a hero passes the min-stats
filter iff its powerstat is at or above the bound for every supplied key;
unsupplied keys impose no constraint, and `{speed: 100}` selects exactly the
heroes with speed at least 100. -/
theorem claim_C5 (heroes : List Hero) (pq : Option String)
    (m : List (StatKey × Int)) (h : Hero) (_hm : m ≠ []) :
    (minStatsFilter m h = true ↔ ∀ kv ∈ m, kv.2 ≤ h.powerstats.get kv.1)
    ∧ (searchByMinStats heroes m pq).count = (heroes.filter (minStatsFilter m)).length
    ∧ (minStatsFilter [(StatKey.speed, 100)] h = true ↔ 100 ≤ h.powerstats.speed) := by
  refine ⟨?_, rfl, ?_⟩
  · simp [minStatsFilter, List.all_eq_true]
  · simp [minStatsFilter, Powerstats.get]

/-- Witness for claim C5 at the mapping `{speed: 100}` and the hero Flash. -/
theorem claim_C5_witness :
    [(StatKey.speed, (100 : Int))] ≠ []
    ∧ ((minStatsFilter [(StatKey.speed, 100)] flashHero = true ↔
          ∀ kv ∈ [(StatKey.speed, (100 : Int))], kv.2 ≤ flashHero.powerstats.get kv.1)
        ∧ (searchByMinStats [flashHero] [(StatKey.speed, 100)] (some "1")).count =
            ([flashHero].filter (minStatsFilter [(StatKey.speed, 100)])).length
        ∧ (minStatsFilter [(StatKey.speed, 100)] flashHero = true ↔
            100 ≤ flashHero.powerstats.speed)) :=
  ⟨by decide, claim_C5 [flashHero] (some "1") [(StatKey.speed, 100)] flashHero (by decide)⟩

/-- Claim C6 (counterexample): the claim says a missing by-name query matches
every hero.  The code concatenates the missing body value into the pattern,
producing `^undefined`, so the hero Flash is not matched and the search
returns nothing. -/
theorem claim_C6_cex :
    byNameFilter none flashHero = false
    ∧ (searchByName [flashHero] none (some "1")).count = 0
    ∧ (searchByName [flashHero] none (some "1")).data = some [] := by
  decide

/-- Claim C6 (amended): for query strings free of regex metacharacters a hero
matches iff its case-folded name starts with the case-folded query ("Flash"
matches "fla", "FLA" and "Fla"); the empty query matches every hero; a
missing query behaves as the literal text "undefined", not as
match-everything. -/
theorem claim_C6_amended (q : String) (h : Hero)
    (hlit : (q.data.map lowerChar).all litChar = true) :
    (byNameFilter (some q) h = true ↔
      (q.data.map lowerChar).isPrefixOf (h.name.data.map lowerChar) = true)
    ∧ byNameFilter (some "") h = true
    ∧ byNameFilter none h = byNameFilter (some "undefined") h
    ∧ byNameFilter (some "fla") flashHero = true
    ∧ byNameFilter (some "FLA") flashHero = true
    ∧ byNameFilter (some "Fla") flashHero = true := by
  refine ⟨?_, ?_, rfl, by decide, by decide, by decide⟩
  · have hmeta : ∀ c ∈ q.data.map lowerChar, c ≠ '*' ∧ c ≠ '.' := by
      intro c hc
      have hl := (List.all_eq_true.mp hlit) c hc
      simp [litChar, regexMeta, not_or] at hl
      exact ⟨hl.2.1, hl.1⟩
    rw [byNameFilter_some_eq, prefMatch_parsePat_lit _ _ hmeta]
  · rw [byNameFilter_some_eq]
    simp [parsePat, prefMatch_eps]

/-- Witness for claim C6 (amended) at the query "fla" and the hero Flash. -/
theorem claim_C6_amended_witness :
    ("fla".data.map lowerChar).all litChar = true
    ∧ ((byNameFilter (some "fla") flashHero = true ↔
          ("fla".data.map lowerChar).isPrefixOf (flashHero.name.data.map lowerChar) = true)
        ∧ byNameFilter (some "") flashHero = true
        ∧ byNameFilter none flashHero = byNameFilter (some "undefined") flashHero
        ∧ byNameFilter (some "fla") flashHero = true
        ∧ byNameFilter (some "FLA") flashHero = true
        ∧ byNameFilter (some "Fla") flashHero = true) :=
  ⟨by decide, claim_C6_amended "fla" flashHero (by decide)⟩

/-- Claim C9: by-name and combined search interpolate raw user text into the
pattern, so metacharacters act as pattern syntax: the query ".*" matches
Flash although "Flash" does not literally start with ".*". -/
theorem claim_C9 :
    byNameFilter (some ".*") flashHero = true
    ∧ nameClause (some ".*") flashHero = true
    ∧ (".*".data.map lowerChar).isPrefixOf (flashHero.name.data.map lowerChar) = false
    ∧ (searchByName [flashHero] (some ".*") (some "1")).count = 1 := by
  decide

/-- Claim C10: the list-heroes pagination object carries previousPage,
nextPage, page and pageCount, in that order; every other list endpoint's
pagination object carries exactly page and pageCount. -/
theorem claim_C10 (heroes : List Hero) (pq : Option String) (body : Option String)
    (m : List (StatKey × Int)) (q : CombinedQuery) (st : DBState) (hid : Nat) :
    (getHeroes heroes pq).pagination.map Prod.fst =
      ["previousPage", "nextPage", "page", "pageCount"]
    ∧ (searchByName heroes body pq).pagination.map Prod.fst = ["page", "pageCount"]
    ∧ (searchByMinStats heroes m pq).pagination.map Prod.fst = ["page", "pageCount"]
    ∧ (getSearch heroes q).pagination.map Prod.fst = ["page", "pageCount"]
    ∧ (getComments st hid pq).pagination.map Prod.fst = ["page", "pageCount"] :=
  ⟨rfl, rfl, rfl, rfl, rfl⟩

/-- Claim C7: for a numeric page p ≥ 1 the list-heroes response reports
previousPage = p − 1 clamped to 1 at p = 1, nextPage = p + 1 unclamped, and
for page 2 over 25 heroes computes skip 10, limit 10, pageCount 3,
previousPage 1 and nextPage 3. -/
theorem claim_C7 (heroes : List Hero) (s : String) (p : Nat) (hp : 1 ≤ p)
    (hnum : strToNumber s = JSNum.num (p : Int))
    (hint : parseIntStr s = JSNum.num (p : Int)) :
    (getHeroes heroes (some s)).pagination =
      [("previousPage", JSNum.num (if p = 1 then 1 else (p : Int) - 1)),
       ("nextPage", JSNum.num ((p : Int) + 1)),
       ("page", JSNum.num (p : Int)),
       ("pageCount", JSNum.num ((ceilPageCount heroes.length DEFAULT_HEROES_PER_PAGE : Nat) : Int))]
    ∧ (p = 2 → heroes.length = 25 →
        (getHeroes heroes (some s)).skip = JSNum.num 10
        ∧ (getHeroes heroes (some s)).limit = 10
        ∧ (getHeroes heroes (some s)).pagination =
            [("previousPage", JSNum.num 1), ("nextPage", JSNum.num 3),
             ("page", JSNum.num 2), ("pageCount", JSNum.num 3)]) := by
  have hv : heroesPageVar (some s) = JSVal.str s := by
    simp [heroesPageVar, hnum]
  have hpag : (getHeroes heroes (some s)).pagination =
      [("previousPage", JSNum.num (if p = 1 then 1 else (p : Int) - 1)),
       ("nextPage", JSNum.num ((p : Int) + 1)),
       ("page", JSNum.num (p : Int)),
       ("pageCount", JSNum.num ((ceilPageCount heroes.length DEFAULT_HEROES_PER_PAGE : Nat) : Int))] := by
    simp only [getHeroes, hv, JSVal.toNumber, JSVal.parseIntJS, hnum, hint,
      JSNum.sub, JSNum.add]
    by_cases h1 : p = 1
    · subst h1
      norm_num
    · have h1' : ((p : Int)) ≠ 1 := by exact_mod_cast h1
      simp [h1, h1']
  refine ⟨hpag, ?_⟩
  intro hp2 hlen
  subst hp2
  refine ⟨?_, rfl, ?_⟩
  · simp only [getHeroes, hv, JSVal.toNumber, hnum, JSNum.sub, JSNum.mul,
      DEFAULT_HEROES_PER_PAGE]
    norm_num
  · rw [hpag, hlen]
    norm_num [ceilPageCount, DEFAULT_HEROES_PER_PAGE]

/-- Witness for claim C7 at page "2" over 25 copies of the hero Flash. -/
theorem claim_C7_witness :
    (1 ≤ 2 ∧ strToNumber "2" = JSNum.num ((2 : Nat) : Int)
      ∧ parseIntStr "2" = JSNum.num ((2 : Nat) : Int))
    ∧ ((getHeroes (List.replicate 25 flashHero) (some "2")).pagination =
        [("previousPage", JSNum.num (if (2 : Nat) = 1 then 1 else ((2 : Nat) : Int) - 1)),
         ("nextPage", JSNum.num (((2 : Nat) : Int) + 1)),
         ("page", JSNum.num ((2 : Nat) : Int)),
         ("pageCount", JSNum.num ((ceilPageCount (List.replicate 25 flashHero).length
             DEFAULT_HEROES_PER_PAGE : Nat) : Int))]
      ∧ ((2 : Nat) = 2 → (List.replicate 25 flashHero).length = 25 →
          (getHeroes (List.replicate 25 flashHero) (some "2")).skip = JSNum.num 10
          ∧ (getHeroes (List.replicate 25 flashHero) (some "2")).limit = 10
          ∧ (getHeroes (List.replicate 25 flashHero) (some "2")).pagination =
              [("previousPage", JSNum.num 1), ("nextPage", JSNum.num 3),
               ("page", JSNum.num 2), ("pageCount", JSNum.num 3)])) :=
  ⟨⟨by decide, by decide, by decide⟩,
    claim_C7 (List.replicate 25 flashHero) "2" 2 (by decide) (by decide) (by decide)⟩

/-- Claim C8: creating a comment with text T1 for hero H and then a second
with text T2, then listing page 1 of H's comments, returns the later comment
before the earlier one, each with the text it was created with and the hero
reference resolved to H's full record. -/
theorem claim_C8 (st : DBState) (H : Nat) (T1 T2 : String) (hr : Hero)
    (hwf : ∀ c ∈ st.comments, c.createdAt < st.clock)
    (hhero : findHero st H = some hr) :
    ∃ rest,
      (getComments (createComment (createComment st H T1).1 H T2).1 H (some "1")).data
        = some ({ text := T2, hero := some hr, createdAt := st.clock + 1 }
            :: { text := T1, hero := some hr, createdAt := st.clock } :: rest) := by
  refine ⟨(((sortByCreatedDesc (st.comments.filter (fun c => c.hero == H))).map
      (populate (createComment (createComment st H T1).1 H T2).1)).take 1), ?_⟩
  have hfil : ∀ (A B : Comment), A.hero = H → B.hero = H →
      ((st.comments ++ [A]) ++ [B]).filter (fun c => c.hero == H)
        = (st.comments.filter (fun c => c.hero == H)) ++ [A, B] := by
    intro A B hA hB
    simp [List.filter_append, hA, hB]
  have hskip : ((jsToNumberOpt (some "1")).sub (JSNum.num 1)).mul (JSNum.num 3)
      = JSNum.num 0 := by decide
  have hh2 : List.find? (fun h => h.id == H) st.heroes = some hr := hhero
  simp only [createComment, getComments, DEFAULT_COMMENTS_PER_PAGE, Nat.cast_ofNat,
    hskip, applySkipLimit]
  rw [hfil _ _ rfl rfl,
    sortDesc_append_two (st.comments.filter (fun c => c.hero == H)) _ _
      (fun p hp => hwf p (List.mem_of_mem_filter hp)) (Nat.lt_succ_self _)]
  simp [List.take_succ_cons, populate, findHero, hh2]

/-- A store holding just the hero Flash and no comments. -/
def flashOnlyDB : DBState :=
  { heroes := [flashHero], comments := [], nextId := 0, clock := 0 }

/-- Witness for claim C8: two comments on Flash in the Flash-only store. -/
theorem claim_C8_witness :
    ∃ rest,
      (getComments (createComment (createComment flashOnlyDB 1 "great").1 1 "cool").1
          1 (some "1")).data
        = some ({ text := "cool", hero := some flashHero, createdAt := 0 + 1 }
            :: { text := "great", hero := some flashHero, createdAt := 0 } :: rest) :=
  claim_C8 flashOnlyDB 1 "great" "cool" flashHero (by simp [flashOnlyDB]) (by decide)

end HeroApp
